import Mathlib

/-!
Shallow embedding of `check-disk-io` (`main.go`) and proofs of the spec claims.

Modelling conventions, kept uniform through the file:

* Go's `float64` metric values are abstracted as a type parameter `V`: the
  program never computes with a value, it only converts a `uint64` counter in
  (`float64(...)`, modelled by a parameter `natToV : Nat → V`) and formats it
  out (`fmt.Sprintf "%v"`, modelled by a parameter `showV : V → String`).
  Quantifying over all `V`, `natToV`, `showV` covers every `float64` value,
  NaN and negative values included, and every formatting of them.
* Go's `uint64` counter fields are `Nat` (no arithmetic is ever performed on
  them, so no wrap-around can occur and no `% 2^64` is needed).
* A Go `map[string]string` tag map is a `List (String × String)` recording the
  iteration order the map produced at render time; a Go map iterates in an
  unspecified order, so statements about tag order hold for the order the list
  fixes (the claims themselves only demand "some order").
* The `metricGroups` registry, a `map[string]*MetricGroup` in Go, is a
  structure with the 11 fields in the source-literal order; the render loop
  over the map is modelled as rendering the fields in that (one possible)
  order.
* Printing (`fmt.Printf`/`fmt.Println`) is modelled as returning the list of
  printed lines.  A method on a pointer receiver (`*MetricGroup`) is modelled
  in state-passing style: it returns the lines it printed together with the
  receiver it leaves behind, so absence of mutation is a provable statement
  rather than a modelling artifact.
* The two external collaborators (`disk.Partitions`, `disk.IOCounters`) are
  inputs: the partition list plus its optional error, and a function from a
  device name to the stat list plus its optional error.
-/

variable {V : Type}

/-- `type Metric struct` from `main.go`: one observation, a tag map
(as the tag iteration order, see the file header) and a value. -/
structure Metric (V : Type) where
  Tags : List (String × String)
  Value : V

/-- `type MetricGroup struct` from `main.go`.  The Go field `Type` is named
`type` here because `Type` is a Lean keyword. -/
structure MetricGroup (V : Type) where
  Comment : String
  type : String
  Name : String
  Metrics : List (Metric V)

/-- `func (g *MetricGroup) AddMetric(tags map[string]string, value float64)`:
append one observation built from `tags` and `value`. -/
def MetricGroup.AddMetric (g : MetricGroup V) (tags : List (String × String)) (value : V) :
    MetricGroup V :=
  { g with Metrics := g.Metrics ++ [{ Tags := tags, Value := value }] }

/-- The inner tag loop of `Output`: starting from `tagStr := ""`, for each
tag append a comma if `tagStr` is nonempty, then `tag ++ "=\"" ++ tvalue ++ "\""`. -/
def tagStrFold (tags : List (String × String)) : String :=
  tags.foldl
    (fun tagStr t =>
      (if tagStr.length > 0 then tagStr ++ "," else tagStr) ++ t.1 ++ "=\"" ++ t.2 ++ "\"")
    ""

/-- The brace-wrapping step of `Output`: wrap the joined tags in braces
if the joined string is nonempty. -/
def tagFragment (tags : List (String × String)) : String :=
  let tagStr := tagStrFold tags
  if tagStr.length > 0 then "\x7b" ++ tagStr ++ "\x7d" else tagStr

/-- `func (g *MetricGroup) Output()`: the list of printed lines, paired with
the receiver the method leaves behind (the body never assigns to `g`).
Line 1 is `fmt.Printf("# HELP %s [%s] %s\n", g.Name, g.Type, g.Comment)`,
line 2 is `fmt.Printf("# TYPE %s %s\n", g.Name, g.Type)`, then one
`fmt.Println(strings.Join([]string{g.Name + tagStr, value}, " "))` per metric,
then `fmt.Println("")`. -/
def MetricGroup.Output (showV : V → String) (g : MetricGroup V) :
    List String × MetricGroup V :=
  (("# HELP " ++ g.Name ++ " [" ++ g.type ++ "] " ++ g.Comment) ::
     ("# TYPE " ++ g.Name ++ " " ++ g.type) ::
     (g.Metrics.foldl
       (fun printed m =>
         printed ++ [String.intercalate " " [g.Name ++ tagFragment m.Tags, showV m.Value]])
       [] ++ [""]),
   g)

/-- The slice of fields of `disk.PartitionStat` the program reads. -/
structure PartitionStat where
  Device : String
  Mountpoint : String
deriving DecidableEq

/-- The fields of `disk.IOCountersStat` the program reads (all `uint64` in Go,
`Nat` here; `Name` is the device name the stat reports). -/
structure IOCountersStat where
  Name : String
  ReadBytes : Nat
  WriteBytes : Nat
  ReadCount : Nat
  WriteCount : Nat
  ReadTime : Nat
  WriteTime : Nat
  IoTime : Nat
  WeightedIO : Nat
  IopsInProgress : Nat
  MergedReadCount : Nat
  MergedWriteCount : Nat
deriving DecidableEq

/-- `tags := map[string]string{"device": v.Name, "mountpoint": p.Mountpoint}`
from `executeCheck`, in the literal's insertion order. -/
def statTags (mountpoint : String) (v : IOCountersStat) : List (String × String) :=
  [("device", v.Name), ("mountpoint", mountpoint)]

/-- The observation `AddMetric` constructs from a tag list and a value. -/
def mkObs (tags : List (String × String)) (value : V) : Metric V :=
  { Tags := tags, Value := value }

/-- The `metricGroups` registry: the `map[string]*MetricGroup` of `executeCheck`
as a structure, fields in the source-literal order. -/
structure Registry (V : Type) where
  disk_read_bytes : MetricGroup V
  disk_write_bytes : MetricGroup V
  disk_read_count : MetricGroup V
  disk_write_count : MetricGroup V
  disk_read_time : MetricGroup V
  disk_write_time : MetricGroup V
  disk_io_time : MetricGroup V
  disk_weighted_io : MetricGroup V
  disk_iops_in_progress : MetricGroup V
  disk_merged_read_count : MetricGroup V
  disk_merged_write_count : MetricGroup V

/-- The 11 series of the registry as a list, in source-literal order; used to
quantify "for every metric series". -/
def Registry.groups (r : Registry V) : List (MetricGroup V) :=
  [r.disk_read_bytes, r.disk_write_bytes, r.disk_read_count, r.disk_write_count,
   r.disk_read_time, r.disk_write_time, r.disk_io_time, r.disk_weighted_io,
   r.disk_iops_in_progress, r.disk_merged_read_count, r.disk_merged_write_count]

/-- The `metricGroups` literal of `executeCheck`: the 11 series with their
exact names, types and help comments; `Metrics` starts as the Go zero value
(nil slice). -/
def metricGroups (V : Type) : Registry V :=
  { disk_read_bytes :=
      { Name := "disk_read_bytes", type := "COUNTER",
        Comment := "These values count the number of bytes read from or written to this block device.",
        Metrics := [] },
    disk_write_bytes :=
      { Name := "disk_write_bytes", type := "COUNTER",
        Comment := "These values count the number of bytes read from or written to this block device.",
        Metrics := [] },
    disk_read_count :=
      { Name := "disk_read_count", type := "COUNTER",
        Comment := "These values increment when an I/O request completes.",
        Metrics := [] },
    disk_write_count :=
      { Name := "disk_write_count", type := "COUNTER",
        Comment := "These values increment when an I/O request completes.",
        Metrics := [] },
    disk_read_time :=
      { Name := "disk_read_time", type := "COUNTER",
        Comment := "These values count the number of milliseconds that I/O requests have waited on this block device. If there are multiple I/O requests waiting, these values will increase at a rate greater than 1000/second; for example, if 60 read requests wait for an average of 30 ms, the read_time field will increase by 60*30 = 1800.",
        Metrics := [] },
    disk_write_time :=
      { Name := "disk_write_time", type := "COUNTER",
        Comment := "These values count the number of milliseconds that I/O requests have waited on this block device. If there are multiple I/O requests waiting, these values will increase at a rate greater than 1000/second; for example, if 60 read requests wait for an average of 30 ms, the read_time field will increase by 60*30 = 1800.",
        Metrics := [] },
    disk_io_time :=
      { Name := "disk_io_time", type := "COUNTER",
        Comment := "This value counts the number of milliseconds during which the device has had I/O requests queued.",
        Metrics := [] },
    disk_weighted_io :=
      { Name := "disk_weighted_io", type := "COUNTER",
        Comment := "This value counts the number of milliseconds that I/O requests have waited on this block device. If there are multiple I/O requests waiting, this value will increase as the product of the number of milliseconds times the number of requests waiting (see disk_read_time for an example).",
        Metrics := [] },
    disk_iops_in_progress :=
      { Name := "disk_iops_in_progress", type := "GAUGE",
        Comment := "This value counts the number of I/O requests that have been issued to the device driver but have not yet completed. It does not include I/O requests that are in the queue but not yet issued to the device driver.",
        Metrics := [] },
    disk_merged_read_count :=
      { Name := "disk_merged_read_count", type := "COUNTER",
        Comment := "Reads and writes which are adjacent to each other may be merged for efficiency. Thus, two 4K reads may become one 8K read before it is ultimately handed to the disk, and so it will be counted (and queued) as only one I/O. These fields lets you know how often this was done.",
        Metrics := [] },
    disk_merged_write_count :=
      { Name := "disk_merged_write_count", type := "COUNTER",
        Comment := "Reads and writes which are adjacent to each other may be merged for efficiency. Thus, two 4K reads may become one 8K read before it is ultimately handed to the disk, and so it will be counted (and queued) as only one I/O. These fields lets you know how often this was done.",
        Metrics := [] } }

/-- The body of `for _, v := range diskio`: distribute one stat record into
the 11 series, each call tagged with the same `tags` map. -/
def processStat (natToV : Nat → V) (mountpoint : String) (r : Registry V)
    (v : IOCountersStat) : Registry V :=
  let tags := statTags mountpoint v
  { r with
    disk_read_bytes := r.disk_read_bytes.AddMetric tags (natToV v.ReadBytes),
    disk_write_bytes := r.disk_write_bytes.AddMetric tags (natToV v.WriteBytes),
    disk_read_count := r.disk_read_count.AddMetric tags (natToV v.ReadCount),
    disk_write_count := r.disk_write_count.AddMetric tags (natToV v.WriteCount),
    disk_read_time := r.disk_read_time.AddMetric tags (natToV v.ReadTime),
    disk_write_time := r.disk_write_time.AddMetric tags (natToV v.WriteTime),
    disk_io_time := r.disk_io_time.AddMetric tags (natToV v.IoTime),
    disk_weighted_io := r.disk_weighted_io.AddMetric tags (natToV ( IOCountersStat.WeightedIO v)),
    disk_iops_in_progress := r.disk_iops_in_progress.AddMetric tags (natToV v.IopsInProgress),
    disk_merged_read_count := r.disk_merged_read_count.AddMetric tags (natToV v.MergedReadCount),
    disk_merged_write_count := r.disk_merged_write_count.AddMetric tags (natToV v.MergedWriteCount) }

/-- `for _, v := range diskio`: fold `processStat` over the stats one
`disk.IOCounters` call returned (in the map's iteration order). -/
def processCounters (natToV : Nat → V) (mountpoint : String)
    (stats : List IOCountersStat) (r : Registry V) : Registry V :=
  stats.foldl (processStat natToV mountpoint) r

/-- `sensu.CheckStateOK`. -/
def CheckStateOK : Nat := 0

/-- The body of `for _, p := range parts`: call `disk.IOCounters(p.Device)`,
log its error if any, and distribute the returned stats; the registry and the
diagnostic log are the loop-carried state. -/
def execStep (natToV : Nat → V)
    (ioCounters : String → List IOCountersStat × Option String)
    (acc : Registry V × List String) (p : PartitionStat) :
    Registry V × List String :=
  let res := ioCounters p.Device
  let logs := match res.2 with
    | some e => acc.2 ++ ["Failed to get IO counters, error: " ++ e]
    | none => acc.2
  (processCounters natToV p.Mountpoint res.1 acc.1, logs)

/-- `func executeCheck(event *types.Event) (int, error)` with the two external
collaborators as inputs: log a partition-enumeration error if any, build the
registry, populate it from every partition, and return `sensu.CheckStateOK`.
Result: final registry, returned status, diagnostic log lines. -/
def executeCheck (natToV : Nat → V) (parts : List PartitionStat)
    (partsErr : Option String)
    (ioCounters : String → List IOCountersStat × Option String) :
    Registry V × Nat × List String :=
  let logs0 : List String := match partsErr with
    | some e => ["Failed to get partitions, error: " ++ e]
    | none => []
  let fin := parts.foldl (execStep natToV ioCounters) (metricGroups V, logs0)
  (fin.1, CheckStateOK, fin.2)

/-- `for _, v := range metricGroups { v.Output() }`: render every series (in
the fixed field order, one possible map-iteration order), threading each
receiver through, and concatenate the printed lines. -/
def renderRegistry (showV : V → String) (r : Registry V) :
    List String × Registry V :=
  let o1 := r.disk_read_bytes.Output showV
  let o2 := r.disk_write_bytes.Output showV
  let o3 := r.disk_read_count.Output showV
  let o4 := r.disk_write_count.Output showV
  let o5 := r.disk_read_time.Output showV
  let o6 := r.disk_write_time.Output showV
  let o7 := r.disk_io_time.Output showV
  let o8 := r.disk_weighted_io.Output showV
  let o9 := r.disk_iops_in_progress.Output showV
  let o10 := r.disk_merged_read_count.Output showV
  let o11 := r.disk_merged_write_count.Output showV
  (o1.1 ++ o2.1 ++ o3.1 ++ o4.1 ++ o5.1 ++ o6.1 ++ o7.1 ++ o8.1 ++ o9.1 ++
     o10.1 ++ o11.1,
   { disk_read_bytes := o1.2, disk_write_bytes := o2.2, disk_read_count := o3.2,
     disk_write_count := o4.2, disk_read_time := o5.2, disk_write_time := o6.2,
     disk_io_time := o7.2, disk_weighted_io := o8.2,
     disk_iops_in_progress := o9.2, disk_merged_read_count := o10.2,
     disk_merged_write_count := o11.2 })

/-- The text of one observation line of `Output`:
`g.Name + tagStr` joined with the rendered value by a single space. -/
def obsLine (showV : V → String) (name : String) (m : Metric V) : String :=
  name ++ tagFragment m.Tags ++ " " ++ showV m.Value

/-- Spec-side shape of a comma join: the pieces in order with a single comma
between consecutive pieces and none leading or trailing.  Used to state the
tag-fragment claim; to be compared with the code's `tagStrFold` loop. -/
def commaJoin : List String → String
  | [] => ""
  | [x] => x
  | x :: y :: rest => x ++ "," ++ commaJoin (y :: rest)

/-- Recognizer for the comment lines of the exposition format: a line whose
first two characters are `#` and a space (both the HELP and the TYPE line of
every block, and never an observation line or the blank line). -/
def isCommentLine (l : String) : Bool :=
  decide (l.data.take 2 = ['#', ' '])

/-- The 22 header lines (HELP and TYPE of each of the 11 series, in the
field order of `renderRegistry`) with their exact names, types and help
texts. -/
def expectedHeaderLines : List String :=
  ["# HELP disk_read_bytes [COUNTER] These values count the number of bytes read from or written to this block device.",
   "# TYPE disk_read_bytes COUNTER",
   "# HELP disk_write_bytes [COUNTER] These values count the number of bytes read from or written to this block device.",
   "# TYPE disk_write_bytes COUNTER",
   "# HELP disk_read_count [COUNTER] These values increment when an I/O request completes.",
   "# TYPE disk_read_count COUNTER",
   "# HELP disk_write_count [COUNTER] These values increment when an I/O request completes.",
   "# TYPE disk_write_count COUNTER",
   "# HELP disk_read_time [COUNTER] These values count the number of milliseconds that I/O requests have waited on this block device. If there are multiple I/O requests waiting, these values will increase at a rate greater than 1000/second; for example, if 60 read requests wait for an average of 30 ms, the read_time field will increase by 60*30 = 1800.",
   "# TYPE disk_read_time COUNTER",
   "# HELP disk_write_time [COUNTER] These values count the number of milliseconds that I/O requests have waited on this block device. If there are multiple I/O requests waiting, these values will increase at a rate greater than 1000/second; for example, if 60 read requests wait for an average of 30 ms, the read_time field will increase by 60*30 = 1800.",
   "# TYPE disk_write_time COUNTER",
   "# HELP disk_io_time [COUNTER] This value counts the number of milliseconds during which the device has had I/O requests queued.",
   "# TYPE disk_io_time COUNTER",
   "# HELP disk_weighted_io [COUNTER] This value counts the number of milliseconds that I/O requests have waited on this block device. If there are multiple I/O requests waiting, this value will increase as the product of the number of milliseconds times the number of requests waiting (see disk_read_time for an example).",
   "# TYPE disk_weighted_io COUNTER",
   "# HELP disk_iops_in_progress [GAUGE] This value counts the number of I/O requests that have been issued to the device driver but have not yet completed. It does not include I/O requests that are in the queue but not yet issued to the device driver.",
   "# TYPE disk_iops_in_progress GAUGE",
   "# HELP disk_merged_read_count [COUNTER] Reads and writes which are adjacent to each other may be merged for efficiency. Thus, two 4K reads may become one 8K read before it is ultimately handed to the disk, and so it will be counted (and queued) as only one I/O. These fields lets you know how often this was done.",
   "# TYPE disk_merged_read_count COUNTER",
   "# HELP disk_merged_write_count [COUNTER] Reads and writes which are adjacent to each other may be merged for efficiency. Thus, two 4K reads may become one 8K read before it is ultimately handed to the disk, and so it will be counted (and queued) as only one I/O. These fields lets you know how often this was done.",
   "# TYPE disk_merged_write_count COUNTER"]

/-- The 11 observation lines one stat record of one device contributes, one
per series, in the field order of the registry. -/
def deviceLines (showV : V → String) (natToV : Nat → V) (mountpoint : String)
    (v : IOCountersStat) : List String :=
  [obsLine showV "disk_read_bytes" (mkObs (statTags mountpoint v) (natToV v.ReadBytes)),
   obsLine showV "disk_write_bytes" (mkObs (statTags mountpoint v) (natToV v.WriteBytes)),
   obsLine showV "disk_read_count" (mkObs (statTags mountpoint v) (natToV v.ReadCount)),
   obsLine showV "disk_write_count" (mkObs (statTags mountpoint v) (natToV v.WriteCount)),
   obsLine showV "disk_read_time" (mkObs (statTags mountpoint v) (natToV v.ReadTime)),
   obsLine showV "disk_write_time" (mkObs (statTags mountpoint v) (natToV v.WriteTime)),
   obsLine showV "disk_io_time" (mkObs (statTags mountpoint v) (natToV v.IoTime)),
   obsLine showV "disk_weighted_io" (mkObs (statTags mountpoint v) (natToV ( IOCountersStat.WeightedIO v))),
   obsLine showV "disk_iops_in_progress" (mkObs (statTags mountpoint v) (natToV v.IopsInProgress)),
   obsLine showV "disk_merged_read_count" (mkObs (statTags mountpoint v) (natToV v.MergedReadCount)),
   obsLine showV "disk_merged_write_count" (mkObs (statTags mountpoint v) (natToV v.MergedWriteCount))]

/-- Concrete stat record of the spec's end-to-end example: device `sda`,
`ReadBytes=1024`, `WriteBytes=2048`, all other counters `0`. -/
def sampleStat : IOCountersStat :=
  { Name := "sda", ReadBytes := 1024, WriteBytes := 2048, ReadCount := 0,
    WriteCount := 0, ReadTime := 0, WriteTime := 0, IoTime := 0,
    WeightedIO := 0, IopsInProgress := 0, MergedReadCount := 0,
    MergedWriteCount := 0 }

/-- One partition: device `sda` mounted at `/`. -/
def sampleParts : List PartitionStat := [{ Device := "sda", Mountpoint := "/" }]

/-- Counters collaborator for the end-to-end example: every device reports
`sampleStat` and no error. -/
def sampleIoC : String → List IOCountersStat × Option String :=
  fun _ => ([sampleStat], none)

/-- Two partitions, `sda` at `/` and `sdb` at `/data`, for the
partial-failure scenario. -/
def samplePartsTwo : List PartitionStat :=
  [{ Device := "sda", Mountpoint := "/" }, { Device := "sdb", Mountpoint := "/data" }]

/-- Counters collaborator where retrieval succeeds for `sda` and fails
(no stats, an error) for every other device. -/
def sampleIoCFail : String → List IOCountersStat × Option String :=
  fun dev => if dev = "sda" then ([sampleStat], none) else ([], some "device not found")

/-- Folding "append one printed line" equals mapping the line function. -/
theorem foldl_push_lines {α β : Type} (f : α → β) :
    ∀ (l : List α) (acc : List β),
      l.foldl (fun printed a => printed ++ [f a]) acc = acc ++ l.map f := by
  intro l
  induction l with
  | nil => intro acc; simp
  | cons a t ih => intro acc; simp [ih]

/-- The lines `Output` prints: the HELP line, the TYPE line, one observation
line per metric in list (= append) order, and a final blank line. -/
theorem Output_fst (showV : V → String) (g : MetricGroup V) :
    (g.Output showV).1 =
      ("# HELP " ++ g.Name ++ " [" ++ g.type ++ "] " ++ g.Comment) ::
        ("# TYPE " ++ g.Name ++ " " ++ g.type) ::
        (g.Metrics.map (obsLine showV g.Name) ++ [""]) := by
  have hfun : (fun (printed : List String) (m : Metric V) =>
      printed ++ [String.intercalate " " [g.Name ++ tagFragment m.Tags, showV m.Value]]) =
      fun printed m => printed ++ [obsLine showV g.Name m] := by
    funext printed m
    rfl
  show ("# HELP " ++ g.Name ++ " [" ++ g.type ++ "] " ++ g.Comment) ::
      ("# TYPE " ++ g.Name ++ " " ++ g.type) ::
      (g.Metrics.foldl _ [] ++ [""]) = _
  rw [hfun, foldl_push_lines (obsLine showV g.Name)]
  simp

/-- A list whose first two characters are known pins down its first two
elements. -/
theorem take_two_eq (l : List Char) (c1 c2 : Char) (h : l.take 2 = [c1, c2]) :
    ∃ r, l = c1 :: c2 :: r := by
  cases l with
  | nil => simp at h
  | cons x t =>
    cases t with
    | nil => simp at h
    | cons y r =>
      simp only [List.take_succ_cons, List.take_zero] at h
      have h' : x = c1 ∧ y = c2 := by simpa using h
      exact ⟨r, by rw [h'.1, h'.2]⟩

/-- Appending on the right does not change the first two characters. -/
theorem data_take_two_append (a b : String) (c1 c2 : Char)
    (h : a.data.take 2 = [c1, c2]) : (a ++ b).data.take 2 = [c1, c2] := by
  obtain ⟨r, hr⟩ := take_two_eq a.data c1 c2 h
  rw [String.data_append, hr]
  rfl

/-- A line whose first two characters are `#` and space is a comment line. -/
theorem isCommentLine_eq_true (l : String) (h : l.data.take 2 = ['#', ' ']) :
    isCommentLine l = true := by
  simp only [isCommentLine, h]
  rfl

/-- A line whose first two characters are `d` and `i` is not a comment line. -/
theorem isCommentLine_eq_false (l : String) (h : l.data.take 2 = ['d', 'i']) :
    isCommentLine l = false := by
  simp only [isCommentLine, h]
  rfl

/-- The HELP and TYPE lines of a series are comment lines, and if the series
name starts with `di` then no observation line and not the blank line is one:
filtering a rendered series for comment lines leaves exactly its two header
lines. -/
theorem filter_Output (showV : V → String) (g : MetricGroup V)
    (h : g.Name.data.take 2 = ['d', 'i']) :
    ((g.Output showV).1).filter isCommentLine =
      ["# HELP " ++ g.Name ++ " [" ++ g.type ++ "] " ++ g.Comment,
       "# TYPE " ++ g.Name ++ " " ++ g.type] := by
  have hHelp : isCommentLine ("# HELP " ++ g.Name ++ " [" ++ g.type ++ "] " ++ g.Comment) = true := by
    apply isCommentLine_eq_true
    apply data_take_two_append
    apply data_take_two_append
    apply data_take_two_append
    apply data_take_two_append
    rfl
  have hType : isCommentLine ("# TYPE " ++ g.Name ++ " " ++ g.type) = true := by
    apply isCommentLine_eq_true
    apply data_take_two_append
    apply data_take_two_append
    rfl
  have hObs : ∀ m ∈ g.Metrics, ¬ (isCommentLine (obsLine showV g.Name m) = true) := by
    intro m _
    have : isCommentLine (obsLine showV g.Name m) = false := by
      apply isCommentLine_eq_false
      apply data_take_two_append
      apply data_take_two_append
      apply data_take_two_append
      exact h
    simp [this]
  have hBlank : isCommentLine "" = false := rfl
  rw [Output_fst]
  rw [List.filter_cons_of_pos hHelp, List.filter_cons_of_pos hType,
    List.filter_append]
  have hnil : (g.Metrics.map (obsLine showV g.Name)).filter isCommentLine = [] := by
    rw [List.filter_eq_nil_iff]
    intro a ha
    obtain ⟨m, hm, hline⟩ := List.mem_map.mp ha
    rw [← hline]
    exact hObs m hm
  rw [hnil]
  simp [hBlank]

/-- Distributing a list of stats into the registry appends, to any single
series (picked by an accessor `F` that commutes with `processStat` as the
per-series `AddMetric` with value selector `vf`), exactly one observation per
stat, in stat order, all tagged with that stat's tag map. -/
theorem processCounters_field (F : Registry V → MetricGroup V)
    (vf : IOCountersStat → Nat) (natToV : Nat → V) (mp : String)
    (hF : ∀ (mp : String) (r : Registry V) (v : IOCountersStat),
      F (processStat natToV mp r v) = (F r).AddMetric (statTags mp v) (natToV (vf v))) :
    ∀ (stats : List IOCountersStat) (r : Registry V),
      F (processCounters natToV mp stats r) =
        { F r with Metrics :=
            ((F r).Metrics ++ stats.map (fun v => mkObs (statTags mp v) (natToV (vf v)))) } := by
  intro stats
  induction stats with
  | nil => intro r; simp [processCounters]
  | cons v vs ih =>
    intro r
    show F (processCounters natToV mp vs (processStat natToV mp r v)) = _
    rw [ih, hF]
    simp [MetricGroup.AddMetric, mkObs]

/-- The partition loop of `executeCheck` appends, to any single series, one
observation per stat of each partition's counter call, partitions in order. -/
theorem foldl_execStep_field (F : Registry V → MetricGroup V)
    (vf : IOCountersStat → Nat) (natToV : Nat → V)
    (ioCounters : String → List IOCountersStat × Option String)
    (hF : ∀ (mp : String) (r : Registry V) (v : IOCountersStat),
      F (processStat natToV mp r v) = (F r).AddMetric (statTags mp v) (natToV (vf v))) :
    ∀ (parts : List PartitionStat) (acc : Registry V × List String),
      F (parts.foldl (execStep natToV ioCounters) acc).1 =
        { F acc.1 with Metrics :=
            ((F acc.1).Metrics ++ parts.flatMap (fun p => ((ioCounters p.Device).1).map
              (fun v => mkObs (statTags p.Mountpoint v) (natToV (vf v))))) } := by
  intro parts
  induction parts with
  | nil => intro acc; simp
  | cons p ps ih =>
    intro acc
    rw [List.foldl_cons, ih]
    have hstep : F (execStep natToV ioCounters acc p).1 =
        { F acc.1 with Metrics :=
            ((F acc.1).Metrics ++ ((ioCounters p.Device).1).map
              (fun v => mkObs (statTags p.Mountpoint v) (natToV (vf v)))) } := by
      show F (processCounters natToV p.Mountpoint (ioCounters p.Device).1 acc.1) = _
      exact processCounters_field F vf natToV p.Mountpoint hF _ _
    rw [hstep]
    simp

/-- The registry `executeCheck` hands to the render loop: any single series
holds, in order, one observation per device per stat, tagged with its device
name and mountpoint, and keeps the name, type and help text of its
definition. -/
theorem executeCheck_field (F : Registry V → MetricGroup V)
    (vf : IOCountersStat → Nat) (natToV : Nat → V)
    (hF : ∀ (mp : String) (r : Registry V) (v : IOCountersStat),
      F (processStat natToV mp r v) = (F r).AddMetric (statTags mp v) (natToV (vf v)))
    (parts : List PartitionStat) (partsErr : Option String)
    (ioCounters : String → List IOCountersStat × Option String) :
    F (executeCheck natToV parts partsErr ioCounters).1 =
      { F (metricGroups V) with Metrics :=
          ((F (metricGroups V)).Metrics ++ parts.flatMap (fun p => ((ioCounters p.Device).1).map
            (fun v => mkObs (statTags p.Mountpoint v) (natToV (vf v))))) } :=
  foldl_execStep_field F vf natToV ioCounters hF parts _

/-- `executeCheck_field` at the `disk_read_bytes` series. -/
theorem exec_disk_read_bytes (natToV : Nat → V) (parts : List PartitionStat)
    (partsErr : Option String)
    (ioCounters : String → List IOCountersStat × Option String) :
    (executeCheck natToV parts partsErr ioCounters).1.disk_read_bytes =
      { (metricGroups V).disk_read_bytes with Metrics :=
          (parts.flatMap (fun p => ((ioCounters p.Device).1).map
            (fun v => mkObs (statTags p.Mountpoint v) (natToV v.ReadBytes)))) } :=
  executeCheck_field (fun r => r.disk_read_bytes) (fun v => v.ReadBytes) natToV
    (fun _ _ _ => rfl) parts partsErr ioCounters

/-- `executeCheck_field` at the `disk_write_bytes` series. -/
theorem exec_disk_write_bytes (natToV : Nat → V) (parts : List PartitionStat)
    (partsErr : Option String)
    (ioCounters : String → List IOCountersStat × Option String) :
    (executeCheck natToV parts partsErr ioCounters).1.disk_write_bytes =
      { (metricGroups V).disk_write_bytes with Metrics :=
          (parts.flatMap (fun p => ((ioCounters p.Device).1).map
            (fun v => mkObs (statTags p.Mountpoint v) (natToV v.WriteBytes)))) } :=
  executeCheck_field (fun r => r.disk_write_bytes) (fun v => v.WriteBytes) natToV
    (fun _ _ _ => rfl) parts partsErr ioCounters

/-- `executeCheck_field` at the `disk_read_count` series. -/
theorem exec_disk_read_count (natToV : Nat → V) (parts : List PartitionStat)
    (partsErr : Option String)
    (ioCounters : String → List IOCountersStat × Option String) :
    (executeCheck natToV parts partsErr ioCounters).1.disk_read_count =
      { (metricGroups V).disk_read_count with Metrics :=
          (parts.flatMap (fun p => ((ioCounters p.Device).1).map
            (fun v => mkObs (statTags p.Mountpoint v) (natToV v.ReadCount)))) } :=
  executeCheck_field (fun r => r.disk_read_count) (fun v => v.ReadCount) natToV
    (fun _ _ _ => rfl) parts partsErr ioCounters

/-- `executeCheck_field` at the `disk_write_count` series. -/
theorem exec_disk_write_count (natToV : Nat → V) (parts : List PartitionStat)
    (partsErr : Option String)
    (ioCounters : String → List IOCountersStat × Option String) :
    (executeCheck natToV parts partsErr ioCounters).1.disk_write_count =
      { (metricGroups V).disk_write_count with Metrics :=
          (parts.flatMap (fun p => ((ioCounters p.Device).1).map
            (fun v => mkObs (statTags p.Mountpoint v) (natToV v.WriteCount)))) } :=
  executeCheck_field (fun r => r.disk_write_count) (fun v => v.WriteCount) natToV
    (fun _ _ _ => rfl) parts partsErr ioCounters

/-- `executeCheck_field` at the `disk_read_time` series. -/
theorem exec_disk_read_time (natToV : Nat → V) (parts : List PartitionStat)
    (partsErr : Option String)
    (ioCounters : String → List IOCountersStat × Option String) :
    (executeCheck natToV parts partsErr ioCounters).1.disk_read_time =
      { (metricGroups V).disk_read_time with Metrics :=
          (parts.flatMap (fun p => ((ioCounters p.Device).1).map
            (fun v => mkObs (statTags p.Mountpoint v) (natToV v.ReadTime)))) } :=
  executeCheck_field (fun r => r.disk_read_time) (fun v => v.ReadTime) natToV
    (fun _ _ _ => rfl) parts partsErr ioCounters

/-- `executeCheck_field` at the `disk_write_time` series. -/
theorem exec_disk_write_time (natToV : Nat → V) (parts : List PartitionStat)
    (partsErr : Option String)
    (ioCounters : String → List IOCountersStat × Option String) :
    (executeCheck natToV parts partsErr ioCounters).1.disk_write_time =
      { (metricGroups V).disk_write_time with Metrics :=
          (parts.flatMap (fun p => ((ioCounters p.Device).1).map
            (fun v => mkObs (statTags p.Mountpoint v) (natToV v.WriteTime)))) } :=
  executeCheck_field (fun r => r.disk_write_time) (fun v => v.WriteTime) natToV
    (fun _ _ _ => rfl) parts partsErr ioCounters

/-- `executeCheck_field` at the `disk_io_time` series. -/
theorem exec_disk_io_time (natToV : Nat → V) (parts : List PartitionStat)
    (partsErr : Option String)
    (ioCounters : String → List IOCountersStat × Option String) :
    (executeCheck natToV parts partsErr ioCounters).1.disk_io_time =
      { (metricGroups V).disk_io_time with Metrics :=
          (parts.flatMap (fun p => ((ioCounters p.Device).1).map
            (fun v => mkObs (statTags p.Mountpoint v) (natToV v.IoTime)))) } :=
  executeCheck_field (fun r => r.disk_io_time) (fun v => v.IoTime) natToV
    (fun _ _ _ => rfl) parts partsErr ioCounters

/-- `executeCheck_field` at the `disk_weighted_io` series. -/
theorem exec_disk_weighted_io (natToV : Nat → V) (parts : List PartitionStat)
    (partsErr : Option String)
    (ioCounters : String → List IOCountersStat × Option String) :
    (executeCheck natToV parts partsErr ioCounters).1.disk_weighted_io =
      { (metricGroups V).disk_weighted_io with Metrics :=
          (parts.flatMap (fun p => ((ioCounters p.Device).1).map
            (fun v => mkObs (statTags p.Mountpoint v) (natToV ( IOCountersStat.WeightedIO v))))) } :=
  executeCheck_field (fun r => r.disk_weighted_io) (fun v => IOCountersStat.WeightedIO v) natToV
    (fun _ _ _ => rfl) parts partsErr ioCounters

/-- `executeCheck_field` at the `disk_iops_in_progress` series. -/
theorem exec_disk_iops_in_progress (natToV : Nat → V) (parts : List PartitionStat)
    (partsErr : Option String)
    (ioCounters : String → List IOCountersStat × Option String) :
    (executeCheck natToV parts partsErr ioCounters).1.disk_iops_in_progress =
      { (metricGroups V).disk_iops_in_progress with Metrics :=
          (parts.flatMap (fun p => ((ioCounters p.Device).1).map
            (fun v => mkObs (statTags p.Mountpoint v) (natToV v.IopsInProgress)))) } :=
  executeCheck_field (fun r => r.disk_iops_in_progress) (fun v => v.IopsInProgress) natToV
    (fun _ _ _ => rfl) parts partsErr ioCounters

/-- `executeCheck_field` at the `disk_merged_read_count` series. -/
theorem exec_disk_merged_read_count (natToV : Nat → V) (parts : List PartitionStat)
    (partsErr : Option String)
    (ioCounters : String → List IOCountersStat × Option String) :
    (executeCheck natToV parts partsErr ioCounters).1.disk_merged_read_count =
      { (metricGroups V).disk_merged_read_count with Metrics :=
          (parts.flatMap (fun p => ((ioCounters p.Device).1).map
            (fun v => mkObs (statTags p.Mountpoint v) (natToV v.MergedReadCount)))) } :=
  executeCheck_field (fun r => r.disk_merged_read_count) (fun v => v.MergedReadCount) natToV
    (fun _ _ _ => rfl) parts partsErr ioCounters

/-- `executeCheck_field` at the `disk_merged_write_count` series. -/
theorem exec_disk_merged_write_count (natToV : Nat → V) (parts : List PartitionStat)
    (partsErr : Option String)
    (ioCounters : String → List IOCountersStat × Option String) :
    (executeCheck natToV parts partsErr ioCounters).1.disk_merged_write_count =
      { (metricGroups V).disk_merged_write_count with Metrics :=
          (parts.flatMap (fun p => ((ioCounters p.Device).1).map
            (fun v => mkObs (statTags p.Mountpoint v) (natToV v.MergedWriteCount)))) } :=
  executeCheck_field (fun r => r.disk_merged_write_count) (fun v => v.MergedWriteCount) natToV
    (fun _ _ _ => rfl) parts partsErr ioCounters

/-- The lines `renderRegistry` prints are the concatenation of the 11 series
renders, in field order. -/
theorem renderRegistry_fst (showV : V → String) (r : Registry V) :
    (renderRegistry showV r).1 =
      (r.disk_read_bytes.Output showV).1 ++ (r.disk_write_bytes.Output showV).1 ++
      (r.disk_read_count.Output showV).1 ++ (r.disk_write_count.Output showV).1 ++
      (r.disk_read_time.Output showV).1 ++ (r.disk_write_time.Output showV).1 ++
      (r.disk_io_time.Output showV).1 ++ (r.disk_weighted_io.Output showV).1 ++
      (r.disk_iops_in_progress.Output showV).1 ++ (r.disk_merged_read_count.Output showV).1 ++
      (r.disk_merged_write_count.Output showV).1 := rfl

/-- `filter_Output` restated over a series whose observation list was
replaced, so it can rewrite after the `exec_` lemmas. -/
theorem filter_Output_set (showV : V → String) (g : MetricGroup V)
    (ms : List (Metric V)) (h : g.Name.data.take 2 = ['d', 'i']) :
    ((({ g with Metrics := ms }) : MetricGroup V).Output showV).1.filter isCommentLine =
      ["# HELP " ++ g.Name ++ " [" ++ g.type ++ "] " ++ g.Comment,
       "# TYPE " ++ g.Name ++ " " ++ g.type] :=
  filter_Output showV _ h

/-- Whatever the collaborators returned, filtering the rendered registry for
comment lines leaves exactly the 22 expected header lines. -/
theorem render_filter_headers (showV : V → String) (natToV : Nat → V)
    (parts : List PartitionStat) (partsErr : Option String)
    (ioCounters : String → List IOCountersStat × Option String) :
    ((renderRegistry showV (executeCheck natToV parts partsErr ioCounters).1).1).filter
        isCommentLine = expectedHeaderLines := by
  rw [renderRegistry_fst,
    exec_disk_read_bytes natToV parts partsErr ioCounters,
    exec_disk_write_bytes natToV parts partsErr ioCounters,
    exec_disk_read_count natToV parts partsErr ioCounters,
    exec_disk_write_count natToV parts partsErr ioCounters,
    exec_disk_read_time natToV parts partsErr ioCounters,
    exec_disk_write_time natToV parts partsErr ioCounters,
    exec_disk_io_time natToV parts partsErr ioCounters,
    exec_disk_weighted_io natToV parts partsErr ioCounters,
    exec_disk_iops_in_progress natToV parts partsErr ioCounters,
    exec_disk_merged_read_count natToV parts partsErr ioCounters,
    exec_disk_merged_write_count natToV parts partsErr ioCounters]
  simp only [List.filter_append]
  rw [filter_Output_set showV ((metricGroups V).disk_read_bytes) _ rfl,
    filter_Output_set showV ((metricGroups V).disk_write_bytes) _ rfl,
    filter_Output_set showV ((metricGroups V).disk_read_count) _ rfl,
    filter_Output_set showV ((metricGroups V).disk_write_count) _ rfl,
    filter_Output_set showV ((metricGroups V).disk_read_time) _ rfl,
    filter_Output_set showV ((metricGroups V).disk_write_time) _ rfl,
    filter_Output_set showV ((metricGroups V).disk_io_time) _ rfl,
    filter_Output_set showV ((metricGroups V).disk_weighted_io) _ rfl,
    filter_Output_set showV ((metricGroups V).disk_iops_in_progress) _ rfl,
    filter_Output_set showV ((metricGroups V).disk_merged_read_count) _ rfl,
    filter_Output_set showV ((metricGroups V).disk_merged_write_count) _ rfl]
  rfl

/-- Every observation of a series yields its line among the series'
rendered lines. -/
theorem mem_output_of_mem_metrics (showV : V → String) (g : MetricGroup V)
    (m : Metric V) (hm : m ∈ g.Metrics) :
    obsLine showV g.Name m ∈ (g.Output showV).1 := by
  rw [Output_fst]
  apply List.mem_cons_of_mem
  apply List.mem_cons_of_mem
  exact List.mem_append_left _ (List.mem_map_of_mem _ hm)

/-- A line printed while rendering any of the 11 series is among the lines
of the full rendered registry. -/
theorem mem_renderRegistry (showV : V → String) (r : Registry V)
    (g : MetricGroup V) (l : String) (hg : g ∈ r.groups)
    (hl : l ∈ (g.Output showV).1) : l ∈ (renderRegistry showV r).1 := by
  rw [renderRegistry_fst]
  simp only [Registry.groups, List.mem_cons, List.not_mem_nil, or_false] at hg
  simp only [List.mem_append]
  rcases hg with h|h|h|h|h|h|h|h|h|h|h <;> subst h <;> tauto

/-- Any stat record of any partition the counters collaborator reported puts,
for any single series, its observation line into the rendered registry. -/
theorem obsLine_mem_render (showV : V → String) (natToV : Nat → V)
    (parts : List PartitionStat) (partsErr : Option String)
    (ioCounters : String → List IOCountersStat × Option String)
    (F : Registry V → MetricGroup V) (vf : IOCountersStat → Nat)
    (hF : ∀ (mp : String) (r : Registry V) (v : IOCountersStat),
      F (processStat natToV mp r v) = (F r).AddMetric (statTags mp v) (natToV (vf v)))
    (hmem : ∀ r : Registry V, F r ∈ r.groups)
    (p : PartitionStat) (hp : p ∈ parts) (v : IOCountersStat)
    (hv : v ∈ (ioCounters p.Device).1) :
    obsLine showV (F (metricGroups V)).Name
        (mkObs (statTags p.Mountpoint v) (natToV (vf v)))
      ∈ (renderRegistry showV (executeCheck natToV parts partsErr ioCounters).1).1 := by
  have hfield := executeCheck_field F vf natToV hF parts partsErr ioCounters
  have hm : mkObs (statTags p.Mountpoint v) (natToV (vf v))
      ∈ (F (executeCheck natToV parts partsErr ioCounters).1).Metrics := by
    rw [hfield]
    simp only [List.mem_append, List.mem_flatMap, List.mem_map]
    exact Or.inr ⟨p, hp, v, hv, rfl⟩
  have hname : (F (executeCheck natToV parts partsErr ioCounters).1).Name =
      (F (metricGroups V)).Name := by rw [hfield]
  have hline := mem_output_of_mem_metrics showV _ _ hm
  rw [hname] at hline
  exact mem_renderRegistry showV _ _ _ (hmem _) hline

/-- A rendered `key="value"` pair is never the empty string. -/
theorem pair_len_pos (a b : String) : 0 < (a ++ "=\"" ++ b ++ "\"").length := by
  rw [String.length_append, String.length_append, String.length_append]
  have h1 : ("=\"" : String).length = 2 := rfl
  have h2 : ("\"" : String).length = 1 := rfl
  omega

/-- A comma join headed by a `a ++ "," ++ b` piece re-associates. -/
theorem commaJoin_comma_cons (a b : String) (l : List String) :
    commaJoin ((a ++ "," ++ b) :: l) = a ++ "," ++ commaJoin (b :: l) := by
  cases l with
  | nil => simp [commaJoin]
  | cons c cs => simp [commaJoin, String.append_assoc]

/-- A comma join headed by a nonempty piece is nonempty. -/
theorem commaJoin_len_pos (x : String) (l : List String) (h : 0 < x.length) :
    0 < (commaJoin (x :: l)).length := by
  cases l with
  | nil => simpa [commaJoin] using h
  | cons c cs =>
    simp only [commaJoin, String.length_append]
    omega

/-- The tag loop of `Output`, started on a nonempty accumulator, joins the
remaining pairs onto it with single commas in between. -/
theorem tagStrFold_go (ts : List (String × String)) :
    ∀ acc : String, 0 < acc.length →
      ts.foldl
        (fun tagStr t =>
          (if tagStr.length > 0 then tagStr ++ "," else tagStr) ++ t.1 ++ "=\"" ++ t.2 ++ "\"")
        acc
      = commaJoin (acc :: ts.map (fun t => t.1 ++ "=\"" ++ t.2 ++ "\"")) := by
  induction ts with
  | nil => intro acc h; simp [commaJoin]
  | cons t ts ih =>
    intro acc h
    rw [List.foldl_cons]
    have hstep : (if acc.length > 0 then acc ++ "," else acc) ++ t.1 ++ "=\"" ++ t.2 ++ "\"" =
        acc ++ "," ++ (t.1 ++ "=\"" ++ t.2 ++ "\"") := by
      rw [if_pos h]
      simp [String.append_assoc]
    rw [hstep]
    have hpos : 0 < (acc ++ "," ++ (t.1 ++ "=\"" ++ t.2 ++ "\"")).length := by
      rw [String.length_append, String.length_append]
      omega
    rw [ih _ hpos, List.map_cons]
    rw [commaJoin_comma_cons]
    rfl

/-- The full tag loop on a nonempty tag list: the pairs joined by single
commas, no leading or trailing comma. -/
theorem tagStrFold_cons (t : String × String) (ts : List (String × String)) :
    tagStrFold (t :: ts) =
      commaJoin ((t :: ts).map (fun t => t.1 ++ "=\"" ++ t.2 ++ "\"")) := by
  show (t :: ts).foldl _ "" = _
  rw [List.foldl_cons]
  have h0 : (if ("" : String).length > 0 then ("" : String) ++ "," else "") ++ t.1 ++ "=\"" ++ t.2 ++ "\"" =
      t.1 ++ "=\"" ++ t.2 ++ "\"" := by
    rw [if_neg (by simp)]
    simp
  rw [h0, tagStrFold_go ts _ (pair_len_pos t.1 t.2), List.map_cons]

/-- Claim C2: rendering a series emits first the line
`# HELP <name> [<type>] <help text>`, then `# TYPE <name> <type>`, then one
line `<name><tag-fragment> <value>` per observation in the order the
observations were appended (list order), and finally one blank line — the
blank line also when the series has zero observations (then the map is empty
and the render is exactly the two header lines plus the blank line). -/
theorem claim_C2_series_render_contract (showV : V → String) (g : MetricGroup V) :
    (g.Output showV).1 =
      ("# HELP " ++ g.Name ++ " [" ++ g.type ++ "] " ++ g.Comment) ::
        ("# TYPE " ++ g.Name ++ " " ++ g.type) ::
        (g.Metrics.map (obsLine showV g.Name) ++ [""]) :=
  Output_fst showV g

/-- Claim C4: an observation with an empty tag-set renders with no braces and
no fragment at all; an observation with one or more tags renders as the
`key="value"` pairs joined by single commas between consecutive pairs, no
leading or trailing comma, wrapped in braces. -/
theorem claim_C4_tag_fragment_shape (tags : List (String × String)) :
    (tags = [] → tagFragment tags = "") ∧
    (tags ≠ [] → tagFragment tags =
      "\x7b" ++ commaJoin (tags.map (fun t => t.1 ++ "=\"" ++ t.2 ++ "\"")) ++ "\x7d") := by
  constructor
  · intro h
    subst h
    rfl
  · intro h
    cases tags with
    | nil => exact absurd rfl h
    | cons t ts =>
      show (if (tagStrFold (t :: ts)).length > 0
          then "\x7b" ++ tagStrFold (t :: ts) ++ "\x7d" else tagStrFold (t :: ts)) = _
      rw [tagStrFold_cons, List.map_cons]
      rw [if_pos (commaJoin_len_pos _ _ (pair_len_pos t.1 t.2))]

/-- Witness for C4 at a concrete two-tag observation. -/
theorem claim_C4_tag_fragment_shape_witness :
    tagFragment [("device", "sda"), ("mountpoint", "/")] =
      "\x7bdevice=\"sda\",mountpoint=\"/\"\x7d" :=
  ((claim_C4_tag_fragment_shape [("device", "sda"), ("mountpoint", "/")]).2
    (by decide)).trans rfl

/-- Claim C7: rendering a series leaves the series untouched (the method
hands its receiver back unchanged), and rendering it a second time produces
exactly the same text. -/
theorem claim_C7_idempotent_rendering (showV : V → String) (g : MetricGroup V) :
    (g.Output showV).2 = g ∧
    ((g.Output showV).2.Output showV).1 = (g.Output showV).1 :=
  ⟨rfl, rfl⟩

/-- Claim C8: `AddMetric` deduplicates nothing and validates nothing: every
call appends exactly one new observation holding exactly the given tag-set
and value (the value type is abstract, so NaN and negative `float64` values
are covered), and two calls with identical tags and value yield two identical
observation lines in the rendered output, the value passed through to
`showV` unchanged. -/
theorem claim_C8_addmetric_no_dedup (showV : V → String) (g : MetricGroup V)
    (tags : List (String × String)) (value : V) :
    (g.AddMetric tags value).Metrics = g.Metrics ++ [mkObs tags value] ∧
    (((g.AddMetric tags value).AddMetric tags value).Output showV).1 =
      ("# HELP " ++ g.Name ++ " [" ++ g.type ++ "] " ++ g.Comment) ::
        ("# TYPE " ++ g.Name ++ " " ++ g.type) ::
        (g.Metrics.map (obsLine showV g.Name) ++
          [obsLine showV g.Name (mkObs tags value),
           obsLine showV g.Name (mkObs tags value), ""]) := by
  refine ⟨rfl, ?_⟩
  rw [Output_fst]
  simp [MetricGroup.AddMetric, mkObs]

/-- Claim C1: for every input — partition enumeration failed, zero devices,
any counters — rendering the registry emits exactly 11 HELP/TYPE blocks, one
per series, with exactly the catalog's names and types (filtering the
rendered lines for `# `-comment lines leaves exactly the 22 expected header
lines, in the model's fixed series order — one of the possible map-iteration
orders). -/
theorem claim_C1_completeness (showV : V → String) (natToV : Nat → V)
    (parts : List PartitionStat) (partsErr : Option String)
    (ioCounters : String → List IOCountersStat × Option String) :
    ((renderRegistry showV (executeCheck natToV parts partsErr ioCounters).1).1).filter
        isCommentLine = expectedHeaderLines :=
  render_filter_headers showV natToV parts partsErr ioCounters

/-- Claim C5: for every combination of collaborator failures (any partition
enumeration error, any per-device counter errors), the check still renders to
completion with all 11 series headers and returns the OK status code. -/
theorem claim_C5_best_effort_ok (showV : V → String) (natToV : Nat → V)
    (parts : List PartitionStat) (partsErr : Option String)
    (ioCounters : String → List IOCountersStat × Option String) :
    (executeCheck natToV parts partsErr ioCounters).2.1 = CheckStateOK ∧
    ((renderRegistry showV (executeCheck natToV parts partsErr ioCounters).1).1).filter
        isCommentLine = expectedHeaderLines :=
  ⟨rfl, render_filter_headers showV natToV parts partsErr ioCounters⟩

/-- Claim C3: with one device `sda` mounted at `/`, `ReadBytes=1024`,
`WriteBytes=2048`, all other counters 0, the rendered `disk_read_bytes`
block contains the observation line
`disk_read_bytes{device="sda",mountpoint="/"} 1024` (tag order is the model's
map-iteration order; the value token is the decimal rendering of 1024). -/
theorem claim_C3_end_to_end_example :
    "disk_read_bytes\x7bdevice=\"sda\",mountpoint=\"/\"\x7d 1024" ∈
      ((executeCheck (fun n => n) sampleParts none sampleIoC).1.disk_read_bytes.Output
        (fun n => toString n)).1 := by
  decide

/-- Claim C6: if counter retrieval fails for one device `d` among the
discovered partitions (no stats, an error) while the others succeed, every
observation line of every other device's stat records still appears in the
rendered output, and the run completes with the OK status. -/
theorem claim_C6_partial_failure_tolerance (showV : V → String) (natToV : Nat → V)
    (parts : List PartitionStat) (partsErr : Option String)
    (ioCounters : String → List IOCountersStat × Option String)
    (d : String) (err : String)
    (_hfail : ioCounters d = ([], some err))
    (_hothers : ∀ p ∈ parts, p.Device ≠ d → (ioCounters p.Device).2 = none) :
    (executeCheck natToV parts partsErr ioCounters).2.1 = CheckStateOK ∧
    ∀ p ∈ parts, p.Device ≠ d → ∀ v ∈ (ioCounters p.Device).1,
      ∀ l ∈ deviceLines showV natToV p.Mountpoint v,
        l ∈ (renderRegistry showV (executeCheck natToV parts partsErr ioCounters).1).1 := by
  refine ⟨rfl, ?_⟩
  intro p hp _ v hv l hl
  simp only [deviceLines, List.mem_cons, List.not_mem_nil, or_false] at hl
  rcases hl with h|h|h|h|h|h|h|h|h|h|h <;> subst h
  · exact obsLine_mem_render showV natToV parts partsErr ioCounters
      (fun r => r.disk_read_bytes) (fun v => v.ReadBytes) (fun _ _ _ => rfl)
      (fun r => by simp [Registry.groups]) p hp v hv
  · exact obsLine_mem_render showV natToV parts partsErr ioCounters
      (fun r => r.disk_write_bytes) (fun v => v.WriteBytes) (fun _ _ _ => rfl)
      (fun r => by simp [Registry.groups]) p hp v hv
  · exact obsLine_mem_render showV natToV parts partsErr ioCounters
      (fun r => r.disk_read_count) (fun v => v.ReadCount) (fun _ _ _ => rfl)
      (fun r => by simp [Registry.groups]) p hp v hv
  · exact obsLine_mem_render showV natToV parts partsErr ioCounters
      (fun r => r.disk_write_count) (fun v => v.WriteCount) (fun _ _ _ => rfl)
      (fun r => by simp [Registry.groups]) p hp v hv
  · exact obsLine_mem_render showV natToV parts partsErr ioCounters
      (fun r => r.disk_read_time) (fun v => v.ReadTime) (fun _ _ _ => rfl)
      (fun r => by simp [Registry.groups]) p hp v hv
  · exact obsLine_mem_render showV natToV parts partsErr ioCounters
      (fun r => r.disk_write_time) (fun v => v.WriteTime) (fun _ _ _ => rfl)
      (fun r => by simp [Registry.groups]) p hp v hv
  · exact obsLine_mem_render showV natToV parts partsErr ioCounters
      (fun r => r.disk_io_time) (fun v => v.IoTime) (fun _ _ _ => rfl)
      (fun r => by simp [Registry.groups]) p hp v hv
  · exact obsLine_mem_render showV natToV parts partsErr ioCounters
      (fun r => r.disk_weighted_io) (fun v => IOCountersStat.WeightedIO v) (fun _ _ _ => rfl)
      (fun r => by simp [Registry.groups]) p hp v hv
  · exact obsLine_mem_render showV natToV parts partsErr ioCounters
      (fun r => r.disk_iops_in_progress) (fun v => v.IopsInProgress) (fun _ _ _ => rfl)
      (fun r => by simp [Registry.groups]) p hp v hv
  · exact obsLine_mem_render showV natToV parts partsErr ioCounters
      (fun r => r.disk_merged_read_count) (fun v => v.MergedReadCount) (fun _ _ _ => rfl)
      (fun r => by simp [Registry.groups]) p hp v hv
  · exact obsLine_mem_render showV natToV parts partsErr ioCounters
      (fun r => r.disk_merged_write_count) (fun v => v.MergedWriteCount) (fun _ _ _ => rfl)
      (fun r => by simp [Registry.groups]) p hp v hv

/-- Witness for C6: two devices, `sdb` failing; `sda`'s `disk_read_bytes`
observation line is in the rendered output and the status is OK. -/
theorem claim_C6_partial_failure_tolerance_witness :
    (executeCheck (fun n => n) samplePartsTwo none sampleIoCFail).2.1 = CheckStateOK ∧
    obsLine (fun n => toString n) "disk_read_bytes"
        (mkObs (statTags "/" sampleStat) sampleStat.ReadBytes) ∈
      (renderRegistry (fun n => toString n)
        (executeCheck (fun n => n) samplePartsTwo none sampleIoCFail).1).1 := by
  have h := claim_C6_partial_failure_tolerance (fun n => toString n) (fun n => n)
    samplePartsTwo none sampleIoCFail "sdb" "device not found" (by decide)
    (by decide)
  refine ⟨h.1, ?_⟩
  have hm := h.2 { Device := "sda", Mountpoint := "/" } (by decide) (by decide)
    sampleStat (by decide)
  exact hm _ (by decide)

/-- Claim C9: a series' name, type and help text are fixed at creation and
never mutated: `AddMetric` only appends to the observation list, rendering
hands the series back unchanged, and after a whole collection pass every
series still carries the name, type and comment of its registry definition,
its observation list having only grown from the (empty) initial one. -/
theorem claim_C9_headers_immutable (showV : V → String) (g : MetricGroup V)
    (tags : List (String × String)) (value : V) :
    ((g.AddMetric tags value).Name = g.Name ∧
      (g.AddMetric tags value).type = g.type ∧
      (g.AddMetric tags value).Comment = g.Comment ∧
      (g.AddMetric tags value).Metrics = g.Metrics ++ [mkObs tags value]) ∧
    (g.Output showV).2 = g ∧
    ∀ (natToV : Nat → V) (parts : List PartitionStat) (partsErr : Option String)
      (ioCounters : String → List IOCountersStat × Option String),
      ∀ g' ∈ ((executeCheck natToV parts partsErr ioCounters).1).groups,
        ∃ g0 ∈ (metricGroups V).groups,
          g'.Name = g0.Name ∧ g'.type = g0.type ∧ g'.Comment = g0.Comment ∧
          ∃ ext, g'.Metrics = g0.Metrics ++ ext := by
  refine ⟨⟨rfl, rfl, rfl, rfl⟩, rfl, ?_⟩
  intro natToV parts partsErr ioCounters g' hg'
  simp only [Registry.groups, List.mem_cons, List.not_mem_nil, or_false] at hg'
  rcases hg' with h|h|h|h|h|h|h|h|h|h|h <;> subst h
  · rw [exec_disk_read_bytes]
    exact ⟨(metricGroups V).disk_read_bytes, by simp [Registry.groups], rfl, rfl, rfl, _, rfl⟩
  · rw [exec_disk_write_bytes]
    exact ⟨(metricGroups V).disk_write_bytes, by simp [Registry.groups], rfl, rfl, rfl, _, rfl⟩
  · rw [exec_disk_read_count]
    exact ⟨(metricGroups V).disk_read_count, by simp [Registry.groups], rfl, rfl, rfl, _, rfl⟩
  · rw [exec_disk_write_count]
    exact ⟨(metricGroups V).disk_write_count, by simp [Registry.groups], rfl, rfl, rfl, _, rfl⟩
  · rw [exec_disk_read_time]
    exact ⟨(metricGroups V).disk_read_time, by simp [Registry.groups], rfl, rfl, rfl, _, rfl⟩
  · rw [exec_disk_write_time]
    exact ⟨(metricGroups V).disk_write_time, by simp [Registry.groups], rfl, rfl, rfl, _, rfl⟩
  · rw [exec_disk_io_time]
    exact ⟨(metricGroups V).disk_io_time, by simp [Registry.groups], rfl, rfl, rfl, _, rfl⟩
  · rw [exec_disk_weighted_io]
    exact ⟨(metricGroups V).disk_weighted_io, by simp [Registry.groups], rfl, rfl, rfl, _, rfl⟩
  · rw [exec_disk_iops_in_progress]
    exact ⟨(metricGroups V).disk_iops_in_progress, by simp [Registry.groups], rfl, rfl, rfl, _, rfl⟩
  · rw [exec_disk_merged_read_count]
    exact ⟨(metricGroups V).disk_merged_read_count, by simp [Registry.groups], rfl, rfl, rfl, _, rfl⟩
  · rw [exec_disk_merged_write_count]
    exact ⟨(metricGroups V).disk_merged_write_count, by simp [Registry.groups], rfl, rfl, rfl, _, rfl⟩

/-- Witness for C9 at the `disk_read_bytes` series of a concrete run. -/
theorem claim_C9_headers_immutable_witness :
    ∃ g0 ∈ (metricGroups Nat).groups,
      ((executeCheck (fun n => n) sampleParts none sampleIoC).1.disk_read_bytes).Name = g0.Name ∧
      ((executeCheck (fun n => n) sampleParts none sampleIoC).1.disk_read_bytes).type = g0.type ∧
      ((executeCheck (fun n => n) sampleParts none sampleIoC).1.disk_read_bytes).Comment = g0.Comment ∧
      ∃ ext, ((executeCheck (fun n => n) sampleParts none sampleIoC).1.disk_read_bytes).Metrics =
        g0.Metrics ++ ext :=
  (claim_C9_headers_immutable (fun n => toString n) ((metricGroups Nat).disk_read_bytes)
      [] 0).2.2 (fun n => n) sampleParts none sampleIoC _ (by simp [Registry.groups])

/-- Claim C10: during the collection pass every processed stat batch grows
all 11 series by the same count (so the 11 observation counts stay equal at
every intermediate registry), and after the pass every series carries, per
successfully retrieved stat record, exactly one observation whose tag list is
the identical two-key `device`/`mountpoint` tag-set. -/
theorem claim_C10_uniform_observations :
    (∀ (natToV : Nat → V) (mp : String) (stats : List IOCountersStat) (r : Registry V),
      ((processCounters natToV mp stats r).groups).map (fun g => g.Metrics.length) =
        (r.groups).map (fun g => g.Metrics.length + stats.length)) ∧
    (∀ (natToV : Nat → V) (parts : List PartitionStat) (partsErr : Option String)
      (ioCounters : String → List IOCountersStat × Option String),
      ∀ g ∈ ((executeCheck natToV parts partsErr ioCounters).1).groups,
        g.Metrics.map (fun m => m.Tags) =
          parts.flatMap (fun p => ((ioCounters p.Device).1).map
            (fun v => statTags p.Mountpoint v))) := by
  constructor
  · intro natToV mp stats r
    have h1 := processCounters_field (fun r => r.disk_read_bytes) (fun v => v.ReadBytes)
      natToV mp (fun _ _ _ => rfl) stats r
    have h2 := processCounters_field (fun r => r.disk_write_bytes) (fun v => v.WriteBytes)
      natToV mp (fun _ _ _ => rfl) stats r
    have h3 := processCounters_field (fun r => r.disk_read_count) (fun v => v.ReadCount)
      natToV mp (fun _ _ _ => rfl) stats r
    have h4 := processCounters_field (fun r => r.disk_write_count) (fun v => v.WriteCount)
      natToV mp (fun _ _ _ => rfl) stats r
    have h5 := processCounters_field (fun r => r.disk_read_time) (fun v => v.ReadTime)
      natToV mp (fun _ _ _ => rfl) stats r
    have h6 := processCounters_field (fun r => r.disk_write_time) (fun v => v.WriteTime)
      natToV mp (fun _ _ _ => rfl) stats r
    have h7 := processCounters_field (fun r => r.disk_io_time) (fun v => v.IoTime)
      natToV mp (fun _ _ _ => rfl) stats r
    have h8 := processCounters_field (fun r => r.disk_weighted_io)
      (fun v => IOCountersStat.WeightedIO v) natToV mp (fun _ _ _ => rfl) stats r
    have h9 := processCounters_field (fun r => r.disk_iops_in_progress)
      (fun v => v.IopsInProgress) natToV mp (fun _ _ _ => rfl) stats r
    have h10 := processCounters_field (fun r => r.disk_merged_read_count)
      (fun v => v.MergedReadCount) natToV mp (fun _ _ _ => rfl) stats r
    have h11 := processCounters_field (fun r => r.disk_merged_write_count)
      (fun v => v.MergedWriteCount) natToV mp (fun _ _ _ => rfl) stats r
    simp only [Registry.groups, List.map_cons, List.map_nil]
    rw [h1, h2, h3, h4, h5, h6, h7, h8, h9, h10, h11]
    simp [List.length_append]
  · intro natToV parts partsErr ioCounters g hg
    simp only [Registry.groups, List.mem_cons, List.not_mem_nil, or_false] at hg
    rcases hg with h|h|h|h|h|h|h|h|h|h|h <;> subst h
    · rw [exec_disk_read_bytes]
      simp [mkObs, List.map_flatMap, Function.comp_def, statTags]
    · rw [exec_disk_write_bytes]
      simp [mkObs, List.map_flatMap, Function.comp_def, statTags]
    · rw [exec_disk_read_count]
      simp [mkObs, List.map_flatMap, Function.comp_def, statTags]
    · rw [exec_disk_write_count]
      simp [mkObs, List.map_flatMap, Function.comp_def, statTags]
    · rw [exec_disk_read_time]
      simp [mkObs, List.map_flatMap, Function.comp_def, statTags]
    · rw [exec_disk_write_time]
      simp [mkObs, List.map_flatMap, Function.comp_def, statTags]
    · rw [exec_disk_io_time]
      simp [mkObs, List.map_flatMap, Function.comp_def, statTags]
    · rw [exec_disk_weighted_io]
      simp [mkObs, List.map_flatMap, Function.comp_def, statTags]
    · rw [exec_disk_iops_in_progress]
      simp [mkObs, List.map_flatMap, Function.comp_def, statTags]
    · rw [exec_disk_merged_read_count]
      simp [mkObs, List.map_flatMap, Function.comp_def, statTags]
    · rw [exec_disk_merged_write_count]
      simp [mkObs, List.map_flatMap, Function.comp_def, statTags]

/-- Witness for C10 at the `disk_read_bytes` series of a concrete run. -/
theorem claim_C10_uniform_observations_witness :
    ((executeCheck (fun n => n) sampleParts none sampleIoC).1.disk_read_bytes).Metrics.map
        (fun m => m.Tags) = [[("device", "sda"), ("mountpoint", "/")]] :=
  ((@claim_C10_uniform_observations Nat).2 (fun n => n) sampleParts none sampleIoC _
    (by simp [Registry.groups])).trans (by decide)
